import Mathlib

/-!
Shallow embedding of `src/main.rs` of the telegram-relay service, and proofs
about it.

Modelling conventions:
* Byte strings (HTTP bodies) are `List Nat` (each entry one byte, < 256).
* Rust `Result<T, BoxError>` becomes `Except String T`; the `?` operator is
  explicit `match`/monadic propagation.
* The external HTTP transport (reqwest) is an oracle function passed in as a
  parameter: the remote side's reply to the one outbound `sendMessage` call is
  a `RemoteOutcome`, and `getUpdates` long-poll replies are a list of
  `PollResult`s (one entry per poll the loop performs).
* `serde_json::from_slice::<SendRequest>` is an external library function; it
  is passed in as a parameter `json_from_slice : List Nat → Except String
  SendRequest` (the `Except.error` string is serde's error message).
* `String::from_utf8` is embedded concretely as `from_utf8` below, a
  byte-level UTF-8 decoder with the exact validation ranges of Rust's standard
  library (rejecting overlong encodings, surrogates and out-of-range values).
  The `Utf8Error` display payload is not reproduced; the handler's error
  message keeps only the fixed text of the `format!` call.
* Rust `str::to_lowercase` is applied in the source only to header values
  that survived `HeaderValue::to_str`, which requires visible ASCII; so it is
  modelled by Lean's ASCII-only `String.toLower`. `eq_ignore_ascii_case` is
  byte-wise ASCII folding, which on strings coincides with comparing the
  `Char.toLower` images.
* The `reqwest::Client` field of `AppState` carries no observable state and
  is omitted. The Display of an HTTP `StatusCode` in the Rust error string
  also appends the canonical reason phrase; the model keeps just the numeric
  status.
-/

/-- `struct Config` from `main.rs` (the `#[serde(default)]` optional field
becomes `Option Int`). -/
structure Config where
  listen_addr : String
  telegram_bot_token : String
  telegram_username : String
  telegram_chat_id : Option Int
deriving DecidableEq, Repr

/-- `struct AppState` from `main.rs`, minus the `reqwest::Client` handle
(no observable state). -/
structure AppState where
  telegram_token : String
  chat_id : Int
deriving DecidableEq, Repr

/-- `struct SendRequest` from `main.rs`: the shape a JSON body must
deserialize into. -/
structure SendRequest where
  message : String
deriving DecidableEq, Repr

/-- The JSON body `send_telegram_message` builds: `{chat_id, text}` plus
`parse_mode` exactly when the handler computed one ( `parse_mode = none`
means the key is absent from the outbound JSON). -/
structure OutboundBody where
  chat_id : Int
  text : String
  parse_mode : Option String
deriving DecidableEq, Repr

/-- What the remote `sendMessage` endpoint does with the one outbound call:
either the transport layer fails (`resp = client.post(..).send().await?`
aborts), or an HTTP response arrives with a status code and a body text
(`resp.text().await.unwrap_or_default()`). -/
inductive RemoteOutcome where
  | transportError (e : String)
  | http (status : Nat) (body : String)
deriving DecidableEq, Repr

/-- `StatusCode::is_success` of the http crate: `200 ≤ s < 300`. -/
def status_is_success (s : Nat) : Bool :=
  200 ≤ s && s < 300

/-- `send_telegram_message` from `main.rs`: build the outbound JSON body and
classify the remote reply.  The body the call would POST is
`outbound_body state text parse_mode` (see `outbound_body`). -/
def outbound_body (state : AppState) (text : String) (parse_mode : Option String) :
    OutboundBody :=
  { chat_id := state.chat_id, text := text, parse_mode := parse_mode }

def send_telegram_message (state : AppState) (text : String)
    (parse_mode : Option String) (remote : OutboundBody → RemoteOutcome) :
    Except String Unit :=
  match remote (outbound_body state text parse_mode) with
  | .transportError e => .error e
  | .http status rbody =>
      if status_is_success status then
        .ok ()
      else
        .error ("Telegram API error " ++ toString status ++ ": " ++ rbody)

/-- One byte of a UTF-8 continuation: `0x80..=0xBF`. -/
def is_cont (b : Nat) : Bool :=
  0x80 ≤ b && b ≤ 0xBF

/-- Byte-level UTF-8 decoding with the validation ranges of Rust
`core::str::validations` (the semantics of `String::from_utf8`): returns the
decoded scalar values, or `none` on any invalid sequence. -/
def utf8_decode_chars : List Nat → Option (List Char)
  | [] => some []
  | b :: rest =>
    if b ≤ 0x7F then
      (utf8_decode_chars rest).map (fun cs => Char.ofNat b :: cs)
    else if 0xC2 ≤ b && b ≤ 0xDF then
      match rest with
      | b1 :: rest2 =>
        if is_cont b1 then
          (utf8_decode_chars rest2).map
            (fun cs => Char.ofNat ((b - 0xC0) * 0x40 + (b1 - 0x80)) :: cs)
        else none
      | [] => none
    else if 0xE0 ≤ b && b ≤ 0xEF then
      match rest with
      | b1 :: b2 :: rest3 =>
        let b1_ok :=
          if b = 0xE0 then 0xA0 ≤ b1 && b1 ≤ 0xBF
          else if b = 0xED then 0x80 ≤ b1 && b1 ≤ 0x9F
          else is_cont b1
        if b1_ok && is_cont b2 then
          (utf8_decode_chars rest3).map
            (fun cs =>
              Char.ofNat ((b - 0xE0) * 0x1000 + (b1 - 0x80) * 0x40 + (b2 - 0x80)) :: cs)
        else none
      | _ => none
    else if 0xF0 ≤ b && b ≤ 0xF4 then
      match rest with
      | b1 :: b2 :: b3 :: rest4 =>
        let b1_ok :=
          if b = 0xF0 then 0x90 ≤ b1 && b1 ≤ 0xBF
          else if b = 0xF4 then 0x80 ≤ b1 && b1 ≤ 0x8F
          else is_cont b1
        if b1_ok && is_cont b2 && is_cont b3 then
          (utf8_decode_chars rest4).map
            (fun cs =>
              Char.ofNat ((b - 0xF0) * 0x40000 + (b1 - 0x80) * 0x1000 +
                (b2 - 0x80) * 0x40 + (b3 - 0x80)) :: cs)
        else none
      | _ => none
    else none
/-- `String::from_utf8` on a byte vector. -/
def from_utf8 (bytes : List Nat) : Option String :=
  (utf8_decode_chars bytes).map String.mk

/-- An inbound HTTP request as `handle_request` observes it: method, path,
and the two headers it reads, already passed through `HeaderValue::to_str().ok()`
(`none` covers both an absent header and a non-ASCII value). -/
structure HttpRequest where
  method : String
  path : String
  content_type : Option String
  telegram_parse_mode : Option String
  body : List Nat
deriving DecidableEq, Repr

structure HttpResponse where
  status : Nat
  body : String
deriving DecidableEq, Repr

/-- ASCII lowercasing of a string, character by character (`Char.toLower`
only changes `A`–`Z`). This is the action of Rust `str::to_lowercase` on the
ASCII strings that can reach it here, and the folding
`str::eq_ignore_ascii_case` applies to both sides. -/
def ascii_lowercase (s : String) : String :=
  String.mk (s.data.map Char.toLower)

/-- Rust `str::starts_with(&str)`: is `p` a prefix of `s`? (On UTF-8
strings, byte-level and character-level prefixes coincide.) -/
def starts_with (s p : String) : Bool :=
  p.data.isPrefixOf s.data

/-- The `is_json` computation of `handle_request`:
`ct.starts_with("application/json")`, defaulting to `false`. -/
def is_json_request (req : HttpRequest) : Bool :=
  (req.content_type.map (fun ct => starts_with ct "application/json")).getD false

/-- The `parse_mode` computation of `handle_request`: lowercase the
`telegram-parse-mode` header value and map `"markdown"` / `"html"` to
Telegram's own mode tags, anything else to no tag. -/
def header_parse_mode (v : Option String) : Option String :=
  v.bind (fun s =>
    if ascii_lowercase s = "markdown" then some "MarkdownV2"
    else if ascii_lowercase s = "html" then some "HTML"
    else none)

/-- The result of one request: what `handle_request` returns
(`Ok(response)` or an `Err` that hyper turns into a connection failure),
paired with the list of outbound `sendMessage` calls it performed. -/
abbrev HandleResult := Except String HttpResponse × List OutboundBody

/-- The tail of the `POST /` arm once a message text is normalized: one
outbound call, then 200 on success and 502 on failure. -/
def relay_send (state : AppState) (message : String) (parse_mode : Option String)
    (remote : OutboundBody → RemoteOutcome) : HandleResult :=
  match send_telegram_message state message parse_mode remote with
  | .ok _ =>
      (.ok { status := 200, body := "\x7b\"status\": \"sent\"\x7d" },
        [outbound_body state message parse_mode])
  | .error e =>
      (.ok { status := 502,
             body := "\x7b\"error\": \"telegram send failed: " ++ e ++ "\"\x7d" },
        [outbound_body state message parse_mode])

/-- `handle_request` from `main.rs`. -/
def handle_request (req : HttpRequest) (state : AppState)
    (json_from_slice : List Nat → Except String SendRequest)
    (remote : OutboundBody → RemoteOutcome) : HandleResult :=
  if req.method = "POST" ∧ req.path = "/" then
    let parse_mode := header_parse_mode req.telegram_parse_mode
    if is_json_request req then
      match json_from_slice req.body with
      | .error e =>
          (.ok { status := 400,
                 body := "\x7b\"error\": \"invalid JSON: " ++ e ++ "\"\x7d" }, [])
      | .ok payload => relay_send state payload.message parse_mode remote
    else
      match from_utf8 req.body with
      | none =>
          -- `String::from_utf8(..).map_err(..)?`: this aborts `handle_request`
          -- with an Err, it does NOT build an HTTP response.
          (.error "invalid UTF-8 in request body", [])
      | some text =>
          if text = "" then
            (.ok { status := 400, body := "\x7b\"error\": \"empty body\"\x7d" }, [])
          else relay_send state text parse_mode remote
  else if req.method = "GET" ∧ req.path = "/health" then
    (.ok { status := 200, body := "\x7b\"status\": \"ok\"\x7d" }, [])
  else
    (.ok { status := 404, body := "\x7b\"error\": \"not found\"\x7d" }, [])

/-- `str::eq_ignore_ascii_case`: byte-wise ASCII case folding, which on
strings is comparing the ASCII-lowercased images. -/
def eq_ignore_ascii_case (a b : String) : Bool :=
  ascii_lowercase a == ascii_lowercase b

/-- `username.strip_prefix('@').unwrap_or(username)` in `resolve_chat_id`:
drop one leading `@` if present. -/
def normalize_username (u : String) : String :=
  match u.data with
  | '@' :: rest => String.mk rest
  | _ => u

/-- One update of a `getUpdates` reply, reduced to the three JSON lookups
`resolve_chat_id` performs on it: `update["update_id"].as_i64()`,
`update["message"]["from"]["username"].as_str()`,
`update["message"]["chat"]["id"].as_i64()` (each `none` when the field is
missing or of the wrong type). -/
structure Update where
  update_id : Option Int
  from_username : Option String
  chat_id : Option Int
deriving DecidableEq, Repr

/-- What the resolver's poll loop did with one list of updates (the inner
`for update in updates` loop): the cursor when the loop stopped, the chat id
if a matching update caused an early return, and how many updates were
examined. -/
structure ScanResult where
  offset : Option Int
  found : Option Int
  processed : Nat
deriving DecidableEq, Repr

/-- The inner `for update in updates` loop of `resolve_chat_id`: advance the
cursor to `update_id + 1` for every update seen, and return the chat id of
the first update whose sender username matches (case-insensitively). -/
def process_updates (username : String) : Option Int → List Update → ScanResult
  | off, [] => { offset := off, found := none, processed := 0 }
  | off, u :: rest =>
    let off2 := match u.update_id with
      | some id => some (id + 1)
      | none => off
    let hit : Option Int :=
      match u.from_username with
      | some fu => if eq_ignore_ascii_case fu username then u.chat_id else none
      | none => none
    match hit with
    | some cid => { offset := off2, found := some cid, processed := 1 }
    | none =>
      let r := process_updates username off2 rest
      { offset := r.offset, found := r.found, processed := r.processed + 1 }

/-- The remote feed's reply to one `getUpdates` long poll: a transport or
JSON-parse failure (the two `?`s in the loop body), or a parsed body whose
`result` field is an array of updates — or absent/non-array (`none`), which
the loop silently skips. -/
inductive PollResult where
  | transportError (e : String)
  | response (result : Option (List Update))
deriving DecidableEq, Repr

/-- A run of the resolver's outer `loop`: the `offset` parameter it sent
with each poll it issued, and how the run ended — `.error e` for a transport
failure, `.ok (some cid)` for a successful resolution, `.ok none` when the
supplied poll replies were exhausted without a match (the real loop would
keep polling forever). -/
structure ResolveRun where
  offsets_used : List (Option Int)
  outcome : Except String (Option Int)
deriving Repr

def resolve_poll_loop (username : String) :
    Option Int → List PollResult → ResolveRun
  | _, [] => { offsets_used := [], outcome := .ok none }
  | off, p :: rest =>
    match p with
    | .transportError e => { offsets_used := [off], outcome := .error e }
    | .response none =>
      let r := resolve_poll_loop username off rest
      { offsets_used := off :: r.offsets_used, outcome := r.outcome }
    | .response (some updates) =>
      let s := process_updates username off updates
      match s.found with
      | some cid => { offsets_used := [off], outcome := .ok (some cid) }
      | none =>
        let r := resolve_poll_loop username s.offset rest
        { offsets_used := off :: r.offsets_used, outcome := r.outcome }

/-- `resolve_chat_id` from `main.rs`, with the remote feed's successive poll
replies supplied as a list: normalize the username, start with no cursor,
and loop. -/
def resolve_chat_id (username : String) (polls : List PollResult) : ResolveRun :=
  resolve_poll_loop (normalize_username username) none polls

/-- The externally visible startup steps of `main` after the config is
loaded, in program order. -/
inductive StartupEvent where
  | resolveChat (username : String)
  | saveConfig (c : Config)
  | bindListener (addr : String)
deriving DecidableEq, Repr

/-- Oracles for the fallible startup steps of `main`: the result of
`resolve_chat_id` (when it runs), of `save_config`, of
`config.listen_addr.parse()`, and of `TcpListener::bind`. -/
structure StartupOracles where
  resolve_result : Except String Int
  save_result : Except String Unit
  parse_result : Except String String
  bind_result : Except String Unit

/-- `main` from `main.rs`, from the loaded config up to the bound listener
(the accept loop itself only clones the `Arc<AppState>`; it never mutates
it): emits the startup events in program order and produces the immutable
`AppState` the serve loop will share. The events are reported even when a
later step fails, so ordering claims survive failures. -/
def main_startup (config : Config) (o : StartupOracles) :
    List StartupEvent × Except String AppState :=
  match config.telegram_chat_id with
  | some id =>
      main_after_resolve config id [] o
  | none =>
      match o.resolve_result with
      | .error e => ([.resolveChat config.telegram_username], .error e)
      | .ok id =>
        let config2 : Config := { config with telegram_chat_id := some id }
        match o.save_result with
        | .error e =>
            ([.resolveChat config.telegram_username, .saveConfig config2], .error e)
        | .ok _ =>
            main_after_resolve config2 id
              [.resolveChat config.telegram_username, .saveConfig config2] o
where
  /-- The tail of `main`: build the shared state, parse the listen address,
  bind. -/
  main_after_resolve (config : Config) (chat_id : Int)
      (events : List StartupEvent) (o : StartupOracles) :
      List StartupEvent × Except String AppState :=
    let state : AppState :=
      { telegram_token := config.telegram_bot_token, chat_id := chat_id }
    match o.parse_result with
    | .error e => (events, .error e)
    | .ok addr =>
      match o.bind_result with
      | .error e => (events ++ [.bindListener addr], .error e)
      | .ok _ => (events ++ [.bindListener addr], .ok state)

/-! ## Helper lemmas -/

theorem relay_send_calls (state : AppState) (message : String)
    (pm : Option String) (remote : OutboundBody → RemoteOutcome) :
    (relay_send state message pm remote).2 = [outbound_body state message pm] := by
  unfold relay_send
  cases send_telegram_message state message pm remote <;> rfl

theorem handle_request_calls_chat_id (req : HttpRequest) (state : AppState)
    (json_from_slice : List Nat → Except String SendRequest)
    (remote : OutboundBody → RemoteOutcome) :
    ∀ ob ∈ (handle_request req state json_from_slice remote).2,
      ob.chat_id = state.chat_id := by
  intro ob hob
  unfold handle_request at hob
  split at hob
  · split at hob
    · split at hob
      · simp at hob
      · rw [relay_send_calls] at hob
        simp at hob
        rw [hob]
        rfl
    · split at hob
      · simp at hob
      · split at hob
        · simp at hob
        · rw [relay_send_calls] at hob
          simp at hob
          rw [hob]
          rfl
  · split at hob <;> simp at hob

/-! ## Concrete fixtures used by the witnesses -/

def demo_state : AppState := { telegram_token := "tok", chat_id := 99 }

def demo_json_request : HttpRequest :=
  { method := "POST", path := "/", content_type := some "application/json",
    telegram_parse_mode := none, body := [0x7b] }

def demo_raw_request : HttpRequest :=
  { method := "POST", path := "/", content_type := none,
    telegram_parse_mode := none, body := [104, 105] }

def demo_remote_ok : OutboundBody → RemoteOutcome := fun _ => .http 200 "ok"

def demo_remote_404 : OutboundBody → RemoteOutcome := fun _ => .http 404 "chat not found"

/-! ## C1 -/

/-- C1: for every `POST /` request whose Content-Type indicates JSON and
whose body deserializes to `{"message": s}`, the text of the single outbound
`sendMessage` call is exactly `s` — no trimming or escaping. -/
theorem c1_json_message_forwarded_verbatim
    (req : HttpRequest) (state : AppState)
    (json_from_slice : List Nat → Except String SendRequest)
    (remote : OutboundBody → RemoteOutcome) (s : String)
    (hm : req.method = "POST") (hp : req.path = "/")
    (hj : is_json_request req = true)
    (hparse : json_from_slice req.body = .ok { message := s }) :
    (handle_request req state json_from_slice remote).2 =
      [{ chat_id := state.chat_id, text := s,
         parse_mode := header_parse_mode req.telegram_parse_mode }] := by
  simp only [handle_request, hm, hp, hj, hparse, if_true, and_self, ite_true]
  rw [relay_send_calls]
  rfl

/-- C1 witness. -/
theorem c1_witness :
    (handle_request demo_json_request demo_state
        (fun _ => .ok { message := "  hello\nworld " }) demo_remote_ok).2 =
      [{ chat_id := 99, text := "  hello\nworld ", parse_mode := none }] :=
  c1_json_message_forwarded_verbatim demo_json_request demo_state
    (fun _ => .ok { message := "  hello\nworld " }) demo_remote_ok
    "  hello\nworld " rfl rfl rfl rfl

/-! ## C2 -/

/-- C2 (refuted as stated — code bug): a `POST /` without JSON Content-Type
whose body is not valid UTF-8 does NOT get a 400 response; the
`String::from_utf8(..).map_err(..)?` in `handle_request` propagates an `Err`
out of the handler (hyper then fails the whole connection), and the remote
send is never attempted.  Evaluated at the failing input `body = [0xFF]`. -/
theorem c2_invalid_utf8_aborts_handler_not_400 :
    handle_request
        { method := "POST", path := "/", content_type := none,
          telegram_parse_mode := none, body := [0xFF] }
        demo_state (fun _ => .error "unused") demo_remote_ok =
      (.error "invalid UTF-8 in request body", []) := rfl

/-! ## C5 -/

/-- C5: for every `POST /` request whose Content-Type indicates JSON but
whose body does not deserialize into `{message: string}`, the handler
returns 400 with a JSON error envelope and no remote send is attempted. -/
theorem c5_bad_json_rejected_400
    (req : HttpRequest) (state : AppState)
    (json_from_slice : List Nat → Except String SendRequest)
    (remote : OutboundBody → RemoteOutcome) (e : String)
    (hm : req.method = "POST") (hp : req.path = "/")
    (hj : is_json_request req = true)
    (hparse : json_from_slice req.body = .error e) :
    handle_request req state json_from_slice remote =
      (.ok { status := 400,
             body := "\x7b\"error\": \"invalid JSON: " ++ e ++ "\"\x7d" }, []) := by
  unfold handle_request
  rw [if_pos ⟨hm, hp⟩]
  simp only [hj, if_true]
  rw [hparse]

/-- C5 witness. -/
theorem c5_witness :
    handle_request demo_json_request demo_state
        (fun _ => .error "EOF while parsing") demo_remote_ok =
      (.ok { status := 400,
             body := "\x7b\"error\": \"invalid JSON: EOF while parsing\"\x7d" }, []) :=
  c5_bad_json_rejected_400 demo_json_request demo_state
    (fun _ => .error "EOF while parsing") demo_remote_ok
    "EOF while parsing" rfl rfl rfl rfl

/-! ## C6 -/

/-- C6: for every `POST /` request without JSON Content-Type whose body is
empty, the handler returns 400 with a JSON error envelope and no remote send
is attempted. -/
theorem c6_empty_body_rejected_400
    (req : HttpRequest) (state : AppState)
    (json_from_slice : List Nat → Except String SendRequest)
    (remote : OutboundBody → RemoteOutcome)
    (hm : req.method = "POST") (hp : req.path = "/")
    (hj : is_json_request req = false) (hb : req.body = []) :
    handle_request req state json_from_slice remote =
      (.ok { status := 400, body := "\x7b\"error\": \"empty body\"\x7d" }, []) := by
  unfold handle_request
  rw [if_pos ⟨hm, hp⟩]
  simp only [hj, if_false, Bool.false_eq_true, ite_false]
  rw [hb]
  rfl

/-- C6 witness. -/
theorem c6_witness :
    handle_request { demo_raw_request with body := [] } demo_state
        (fun _ => .error "unused") demo_remote_ok =
      (.ok { status := 400, body := "\x7b\"error\": \"empty body\"\x7d" }, []) :=
  c6_empty_body_rejected_400 { demo_raw_request with body := [] } demo_state
    (fun _ => .error "unused") demo_remote_ok rfl rfl rfl rfl

/-! ## C4 -/

/-- How `relay_send` maps the remote outcome of its single call: any 2xx
status becomes 200 `{"status": "sent"}`, any other status or a transport
error becomes 502 with the remote's error detail in the body. -/
theorem relay_send_eq (state : AppState) (message : String)
    (pm : Option String) (remote : OutboundBody → RemoteOutcome) :
    relay_send state message pm remote =
      (match remote { chat_id := state.chat_id, text := message, parse_mode := pm } with
       | .http s rb =>
           if status_is_success s then
             Except.ok { status := 200, body := "\x7b\"status\": \"sent\"\x7d" }
           else
             Except.ok { status := 502,
                         body := "\x7b\"error\": \"telegram send failed: " ++
                           ("Telegram API error " ++ toString s ++ ": " ++ rb) ++ "\"\x7d" }
       | .transportError e =>
           Except.ok { status := 502,
                       body := "\x7b\"error\": \"telegram send failed: " ++ e ++ "\"\x7d" },
       [{ chat_id := state.chat_id, text := message, parse_mode := pm }]) := by
  unfold relay_send send_telegram_message outbound_body
  cases remote { chat_id := state.chat_id, text := message, parse_mode := pm } with
  | transportError e => rfl
  | http s rb => cases hss : status_is_success s <;> simp [hss]

/-- C4: whenever a `POST /` body normalizes to a message `m` (either as
JSON `{"message": m}` with JSON content-type, or as non-empty UTF-8 text
without), exactly one remote send is performed, a 2xx remote status yields
200 `{"status": "sent"}`, and a non-2xx status or a transport error yields
502 with the remote's error detail in the body — no retry, the response is
a pure function of the single outcome. -/
theorem c4_remote_outcome_mapped_once
    (req : HttpRequest) (state : AppState)
    (json_from_slice : List Nat → Except String SendRequest)
    (remote : OutboundBody → RemoteOutcome) (m : String)
    (hm : req.method = "POST") (hp : req.path = "/")
    (hnorm :
      (is_json_request req = true ∧ json_from_slice req.body = .ok { message := m }) ∨
      (is_json_request req = false ∧ from_utf8 req.body = some m ∧ m ≠ "")) :
    handle_request req state json_from_slice remote =
      (match remote { chat_id := state.chat_id, text := m,
                      parse_mode := header_parse_mode req.telegram_parse_mode } with
       | .http s rb =>
           if status_is_success s then
             Except.ok { status := 200, body := "\x7b\"status\": \"sent\"\x7d" }
           else
             Except.ok { status := 502,
                         body := "\x7b\"error\": \"telegram send failed: " ++
                           ("Telegram API error " ++ toString s ++ ": " ++ rb) ++ "\"\x7d" }
       | .transportError e =>
           Except.ok { status := 502,
                       body := "\x7b\"error\": \"telegram send failed: " ++ e ++ "\"\x7d" },
       [{ chat_id := state.chat_id, text := m,
          parse_mode := header_parse_mode req.telegram_parse_mode }]) := by
  rcases hnorm with ⟨hj, hparse⟩ | ⟨hj, hutf, hne⟩
  · simp only [handle_request, hm, hp, hj, hparse, and_self, if_true, ite_true]
    exact relay_send_eq state m (header_parse_mode req.telegram_parse_mode) remote
  · simp only [handle_request, hm, hp, hj, hutf, and_self, if_true, ite_true,
      Bool.false_eq_true, if_false, ite_false]
    rw [if_neg hne]
    exact relay_send_eq state m (header_parse_mode req.telegram_parse_mode) remote

/-- C4 witness: raw-text request, remote replies 404. -/
theorem c4_witness :
    handle_request demo_raw_request demo_state
        (fun _ => .error "unused") demo_remote_404 =
      (.ok { status := 502,
             body := "\x7b\"error\": \"telegram send failed: Telegram API error 404: chat not found\"\x7d" },
       [{ chat_id := 99, text := "hi", parse_mode := none }]) :=
  c4_remote_outcome_mapped_once demo_raw_request demo_state
    (fun _ => .error "unused") demo_remote_404 "hi" rfl rfl
    (Or.inr ⟨rfl, rfl, by decide⟩)

/-! ## C7 -/

/-- C7: every outbound call carries exactly the parse mode computed from the
`telegram-parse-mode` header, and that computation maps "markdown" (any
ASCII case) to `"MarkdownV2"`, "html" (any ASCII case) to `"HTML"`, and any
other or absent value to no tag at all. -/
theorem c7_formatting_header_mapping :
    (∀ (req : HttpRequest) (state : AppState)
       (json_from_slice : List Nat → Except String SendRequest)
       (remote : OutboundBody → RemoteOutcome),
       ∀ ob ∈ (handle_request req state json_from_slice remote).2,
         ob.parse_mode = header_parse_mode req.telegram_parse_mode) ∧
    (∀ v, ascii_lowercase v = "markdown" →
       header_parse_mode (some v) = some "MarkdownV2") ∧
    (∀ v, ascii_lowercase v = "html" →
       header_parse_mode (some v) = some "HTML") ∧
    (∀ v, ascii_lowercase v ≠ "markdown" → ascii_lowercase v ≠ "html" →
       header_parse_mode (some v) = none) ∧
    header_parse_mode none = none := by
  refine ⟨?_, ?_, ?_, ?_, rfl⟩
  · intro req state json_from_slice remote ob hob
    unfold handle_request at hob
    split at hob
    · split at hob
      · split at hob
        · simp at hob
        · rw [relay_send_calls] at hob
          simp at hob
          rw [hob]
          rfl
      · split at hob
        · simp at hob
        · split at hob
          · simp at hob
          · rw [relay_send_calls] at hob
            simp at hob
            rw [hob]
            rfl
    · split at hob <;> simp at hob
  · intro v h
    simp [header_parse_mode, h]
  · intro v h
    simp [header_parse_mode, h]
  · intro v h1 h2
    simp [header_parse_mode, h1, h2]

/-- C7 witness. -/
theorem c7_witness :
    header_parse_mode (some "mArKdOwN") = some "MarkdownV2" ∧
    header_parse_mode (some "Html") = some "HTML" ∧
    header_parse_mode (some "plain text") = none ∧
    header_parse_mode none = none ∧
    ({ chat_id := 99, text := "hi", parse_mode := none } : OutboundBody).parse_mode =
      header_parse_mode demo_raw_request.telegram_parse_mode :=
  ⟨c7_formatting_header_mapping.2.1 "mArKdOwN" rfl,
   c7_formatting_header_mapping.2.2.1 "Html" rfl,
   c7_formatting_header_mapping.2.2.2.1 "plain text" (by decide) (by decide),
   c7_formatting_header_mapping.2.2.2.2,
   c7_formatting_header_mapping.1 demo_raw_request demo_state
     (fun _ => .error "unused") demo_remote_404
     { chat_id := 99, text := "hi", parse_mode := none } (List.Mem.head _)⟩

/-! ## C3 -/

def c3_target : String := "Ada"

def c3_update5 : Update :=
  { update_id := some 5, from_username := some "bob", chat_id := some 10 }

def c3_update6 : Update :=
  { update_id := some 6, from_username := none, chat_id := none }

def c3_update7 : Update :=
  { update_id := some 7, from_username := some "ADA", chat_id := some 777 }

def c3_update7_other : Update :=
  { update_id := some 7, from_username := some "carol", chat_id := some 11 }

/-- C3: on a poll returning updates with ids [5,6,7] where only update 7
matches the target, the resolver returns update 7's chat id after examining
exactly 3 updates with the cursor advanced to 8; if the matching message
only arrives on a second poll, that second poll is issued with offset 8.
In general a matching update also advances the cursor to its
`update_id + 1` before the early return. -/
theorem c3_cursor_monotone_and_return :
    process_updates c3_target none [c3_update5, c3_update6, c3_update7] =
      { offset := some 8, found := some 777, processed := 3 } ∧
    resolve_chat_id c3_target [.response (some [c3_update5, c3_update6, c3_update7])] =
      { offsets_used := [none], outcome := .ok (some 777) } ∧
    (resolve_chat_id c3_target
        [.response (some [c3_update5, c3_update6, c3_update7_other]),
         .response (some [c3_update7])]).offsets_used = [none, some 8] ∧
    (∀ (username : String) (off : Option Int) (i cid : Int) (fu : String)
       (rest : List Update) (u : Update),
       u.update_id = some i → u.from_username = some fu → u.chat_id = some cid →
       eq_ignore_ascii_case fu username = true →
       process_updates username off (u :: rest) =
         { offset := some (i + 1), found := some cid, processed := 1 }) := by
  refine ⟨rfl, rfl, rfl, ?_⟩
  intro username off i cid fu rest u hu1 hu2 hu3 hmatch
  simp [process_updates, hu1, hu2, hu3, hmatch]

/-- C3 witness (for the general matched-update-advances-cursor clause). -/
theorem c3_witness :
    process_updates "ada" (some 3) [c3_update7] =
      { offset := some 8, found := some 777, processed := 1 } :=
  c3_cursor_monotone_and_return.2.2.2 "ada" (some 3) 7 777 "ADA" [] c3_update7
    rfl rfl rfl rfl

/-! ## C8 -/

/-- C8: the configured target has one leading "@" stripped before
comparison, and an update whose sender username equals the normalized
target up to ASCII letter case is accepted: its chat id is returned. -/
theorem c8_username_match_case_insensitive :
    (∀ s : String, normalize_username ("@" ++ s) = s) ∧
    (∀ (t fu : String) (i cid : Int),
       ascii_lowercase fu = ascii_lowercase (normalize_username t) →
       resolve_chat_id t
           [.response (some [{ update_id := some i, from_username := some fu, chat_id := some cid }])] =
         { offsets_used := [none], outcome := .ok (some cid) }) := by
  constructor
  · intro s
    cases s with
    | mk l => rfl
  · intro t fu i cid h
    have hb : eq_ignore_ascii_case fu (normalize_username t) = true := by
      simp [eq_ignore_ascii_case, h]
    simp [resolve_chat_id, resolve_poll_loop, process_updates, hb]

/-- C8 witness. -/
theorem c8_witness :
    normalize_username ("@" ++ "Ada") = "Ada" ∧
    resolve_chat_id "@Ada"
        [.response (some [{ update_id := some 2, from_username := some "aDA", chat_id := some 42 }])] =
      { offsets_used := [none], outcome := .ok (some 42) } :=
  ⟨c8_username_match_case_insensitive.1 "Ada",
   c8_username_match_case_insensitive.2 "@Ada" "aDA" 2 42 rfl⟩

/-! ## C9 -/

/-- C9: when the loaded config carries no cached chat id, startup resolves
the id, saves the updated config, and only then binds the listener — in that
order, each exactly once — and the served state carries the resolved id;
when a cached id exists, no resolution and no save happen at all; and during
steady-state serving every outbound call uses exactly the chat id frozen in
the shared state. -/
theorem c9_resolve_save_before_bind
    (cfg : Config) (o : StartupOracles) (id : Int) (addr : String)
    (hnone : cfg.telegram_chat_id = none)
    (hres : o.resolve_result = .ok id)
    (hsave : o.save_result = .ok ())
    (hparse : o.parse_result = .ok addr)
    (hbind : o.bind_result = .ok ()) :
    main_startup cfg o =
      ([.resolveChat cfg.telegram_username,
        .saveConfig { cfg with telegram_chat_id := some id },
        .bindListener addr],
       .ok { telegram_token := cfg.telegram_bot_token, chat_id := id }) ∧
    (∀ (cfg2 : Config) (id2 : Int), cfg2.telegram_chat_id = some id2 →
       ∀ ev ∈ (main_startup cfg2 o).1,
         (∀ u, ev ≠ .resolveChat u) ∧ ∀ c, ev ≠ .saveConfig c) ∧
    (∀ (state : AppState) (req : HttpRequest)
       (json_from_slice : List Nat → Except String SendRequest)
       (remote : OutboundBody → RemoteOutcome),
       ∀ ob ∈ (handle_request req state json_from_slice remote).2,
         ob.chat_id = state.chat_id) := by
  refine ⟨?_, ?_, ?_⟩
  · simp [main_startup, hnone, hres, hsave, hparse, hbind,
      main_startup.main_after_resolve]
  · intro cfg2 id2 h2 ev hev
    simp [main_startup, h2, hparse, hbind, main_startup.main_after_resolve] at hev
    subst hev
    exact ⟨fun u => by simp, fun c => by simp⟩
  · intro state req json_from_slice remote
    exact handle_request_calls_chat_id req state json_from_slice remote

def c9_config : Config :=
  { listen_addr := "127.0.0.1:8080", telegram_bot_token := "tok",
    telegram_username := "user", telegram_chat_id := none }

def c9_oracles : StartupOracles :=
  { resolve_result := .ok 7, save_result := .ok (),
    parse_result := .ok "127.0.0.1:8080", bind_result := .ok () }

/-- C9 witness. -/
theorem c9_witness :
    main_startup c9_config c9_oracles =
      ([.resolveChat "user",
        .saveConfig { c9_config with telegram_chat_id := some 7 },
        .bindListener "127.0.0.1:8080"],
       .ok { telegram_token := "tok", chat_id := 7 }) :=
  (c9_resolve_save_before_bind c9_config c9_oracles 7 "127.0.0.1:8080"
    rfl rfl rfl rfl rfl).1

/-! ## C10 -/

/-- C10: a JSON request whose body parses to `{"message": ""}` is NOT
rejected by the empty-body check (which only guards the non-JSON branch):
the empty string is forwarded as the text of the one outbound call, and the
response status is the send outcome's 200 or 502, never 400. -/
theorem c10_json_empty_message_forwarded
    (req : HttpRequest) (state : AppState)
    (json_from_slice : List Nat → Except String SendRequest)
    (remote : OutboundBody → RemoteOutcome)
    (hm : req.method = "POST") (hp : req.path = "/")
    (hj : is_json_request req = true)
    (hparse : json_from_slice req.body = .ok { message := "" }) :
    (handle_request req state json_from_slice remote).2 =
      [{ chat_id := state.chat_id, text := "",
         parse_mode := header_parse_mode req.telegram_parse_mode }] ∧
    (∀ r : HttpResponse, (handle_request req state json_from_slice remote).1 = .ok r →
       r.status = 200 ∨ r.status = 502) := by
  constructor
  · simp only [handle_request, hm, hp, hj, hparse, and_self, if_true, ite_true]
    rw [relay_send_calls]
    rfl
  · intro r hr
    simp only [handle_request, hm, hp, hj, hparse, and_self, if_true, ite_true] at hr
    cases hsend : send_telegram_message state ""
        (header_parse_mode req.telegram_parse_mode) remote with
    | ok u =>
      simp only [relay_send, hsend] at hr
      cases hr
      left
      rfl
    | error e =>
      simp only [relay_send, hsend] at hr
      cases hr
      right
      rfl

/-- C10 witness. -/
theorem c10_witness :
    (handle_request demo_json_request demo_state
        (fun _ => .ok { message := "" }) demo_remote_ok).2 =
      [{ chat_id := 99, text := "", parse_mode := none }] ∧
    (({ status := 200, body := "\x7b\"status\": \"sent\"\x7d" } : HttpResponse).status = 200 ∨
     ({ status := 200, body := "\x7b\"status\": \"sent\"\x7d" } : HttpResponse).status = 502) :=
  ⟨(c10_json_empty_message_forwarded demo_json_request demo_state
      (fun _ => .ok { message := "" }) demo_remote_ok rfl rfl rfl rfl).1,
   (c10_json_empty_message_forwarded demo_json_request demo_state
      (fun _ => .ok { message := "" }) demo_remote_ok rfl rfl rfl rfl).2
     { status := 200, body := "\x7b\"status\": \"sent\"\x7d" } rfl⟩
